import Mathlib

/-!
Verification of the Weather Gateway service (`backend/main.py`).

The single handler `get_weather` is embedded as a pure function from its
configuration (the two environment variables), the inbound city path segment,
and the outcome of the single outbound HTTP call, to a result recording the
HTTP response delivered to the caller, the list of outbound requests issued,
the increment applied to the `weather_requests_total` counter, and whether the
`request_duration_seconds` histogram received an observation.

Python exceptions are modelled explicitly: the `try` block returns
`Except RaisedExc WeatherResponse`, and the two `except` clauses are a match on
the raised exception, mirroring `except httpx.RequestError` followed by
`except Exception`.  `fastapi.HTTPException` is a subclass of `Exception`, so
an `HTTPException` raised inside the `try` block is caught by the trailing
generic clause and re-raised as status 500 with detail `str(e)`; `str` of a
starlette `HTTPException` renders as `"<status_code>: <detail>"`.
-/

namespace WeatherApp

/-- JSON values as produced by `response.json()` (Python `json` module):
dicts, lists, strings, ints, floats, booleans, null.  Numbers are carried
exactly (`Rat` for floats), since the handler only copies them.  `jobj` models
an already-built Python dict, so its keys are distinct. -/
inductive Json where
  | jstr (s : String)
  | jint (n : Int)
  | jnum (q : Rat)
  | jbool (b : Bool)
  | jnull
  | jarr (xs : List Json)
  | jobj (fields : List (String × Json))

/-- Python type name of a JSON value, as used in TypeError messages. -/
def Json.typeName : Json → String
  | .jstr _ => "str"
  | .jint _ => "int"
  | .jnum _ => "float"
  | .jbool _ => "bool"
  | .jnull => "NoneType"
  | .jarr _ => "list"
  | .jobj _ => "dict"

/-- Exceptions the handler body can raise (other than `httpx.RequestError`,
modelled separately as `RaisedExc.requestError`).  The `validationError`
message abbreviates pydantic rendering; no claim depends on its exact text. -/
inductive PyExc where
  | keyError (k : String)
  | keyErrorInt (n : Int)
  | indexError (msg : String)
  | typeError (msg : String)
  | attributeError (msg : String)
  | validationError (msg : String)
  | httpException (status : Nat) (detail : String)
deriving DecidableEq, Repr

/-- Python `str(e)` for each modelled exception.  `str(KeyError(k))` is the
repr of the key (quoted for a string key); `str` of a starlette/fastapi
`HTTPException` is `f"\x7bstatus_code\x7d: \x7bdetail\x7d"`. -/
def strOfExc : PyExc → String
  | .keyError k => "\x27" ++ k ++ "\x27"
  | .keyErrorInt n => toString n
  | .indexError m => m
  | .typeError m => m
  | .attributeError m => m
  | .validationError m => m
  | .httpException s d => toString s ++ ": " ++ d

/-- Python dict subscription `j[k]` with a string key: a value for `k`, or
`KeyError` when absent, or `TypeError` when `j` is not subscriptable by a
string. -/
def pyGetKey (j : Json) (k : String) : Except PyExc Json :=
  match j with
  | .jobj fields =>
    match fields.lookup k with
    | some v => .ok v
    | none => .error (.keyError k)
  | .jarr _ => .error (.typeError "list indices must be integers or slices, not str")
  | .jstr _ => .error (.typeError "string indices must be integers")
  | other => .error (.typeError ("\x27" ++ other.typeName ++ "\x27 object is not subscriptable"))

/-- Python subscription `j[i]` with an integer index (only `0` is used by the
handler): list indexing with `IndexError` past the end, dict indexing raising
`KeyError(i)`, string indexing yielding a one-character string. -/
def pyGetIndex (j : Json) (i : Nat) : Except PyExc Json :=
  match j with
  | .jarr xs =>
    match xs.get? i with
    | some v => .ok v
    | none => .error (.indexError "list index out of range")
  | .jobj _ => .error (.keyErrorInt i)
  | .jstr s =>
    match s.data.get? i with
    | some c => .ok (.jstr (String.mk [c]))
    | none => .error (.indexError "string index out of range")
  | other => .error (.typeError ("\x27" ++ other.typeName ++ "\x27 object is not subscriptable"))

/-- Python `str.title()` restricted to ASCII: each alphabetic character that
follows a non-alphabetic one (or starts the string) is uppercased, every other
alphabetic character is lowercased, non-alphabetic characters pass through. -/
def pyTitleAux : Bool → List Char → List Char
  | _, [] => []
  | prevCased, c :: rest =>
    if c.isAlpha then
      (if prevCased then c.toLower else c.toUpper) :: pyTitleAux true rest
    else
      c :: pyTitleAux false rest

/-- Python `s.title()` on a string value. -/
def pyTitle (s : String) : String := String.mk (pyTitleAux false s.data)

/-- `v.title()`: attribute lookup on a non-string raises `AttributeError`. -/
def pyTitleOn (v : Json) : Except PyExc String :=
  match v with
  | .jstr s => .ok (pyTitle s)
  | other =>
    .error (.attributeError
      ("\x27" ++ other.typeName ++ "\x27 object has no attribute \x27title\x27"))

/-- The `WeatherResponse` pydantic model.  `temperature` and `wind_speed` are
carried as exact rationals standing for the JSON numbers. -/
structure WeatherResponse where
  city : String
  temperature : Rat
  description : String
  humidity : Int
  wind_speed : Rat
  icon : String
  country : String
deriving DecidableEq, Repr

/-- Pydantic validation of a `str` field: accepts exactly a JSON string
(pydantic v2 does not coerce numbers to `str`). -/
def asStr (field : String) (v : Json) : Except PyExc String :=
  match v with
  | .jstr s => .ok s
  | _ => .error (.validationError (field ++ ": Input should be a valid string"))

/-- Pydantic validation of a `float` field: accepts JSON floats and ints
(lax string-to-number coercion is not modelled; the provider sends numbers). -/
def asFloat (field : String) (v : Json) : Except PyExc Rat :=
  match v with
  | .jnum q => .ok q
  | .jint n => .ok (n : Rat)
  | _ => .error (.validationError (field ++ ": Input should be a valid number"))

/-- Pydantic validation of an `int` field: accepts JSON ints, and floats with
zero fractional part. -/
def asIntField (field : String) (v : Json) : Except PyExc Int :=
  match v with
  | .jint n => .ok n
  | .jnum q => if q.den = 1 then .ok q.num else
      .error (.validationError (field ++ ": Input should be a valid integer"))
  | _ => .error (.validationError (field ++ ": Input should be a valid integer"))

/-- The `WeatherResponse(...)` construction from `data = response.json()`:
the keyword arguments are evaluated left to right exactly as written in the
source (`data["main"]` and `data["weather"][0]` are each subscripted twice),
then the pydantic field validations run.  The first exception raised is
returned. -/
def extractWeather (data : Json) : Except PyExc WeatherResponse := do
  let nameJ ← pyGetKey data "name"
  let mainJ ← pyGetKey data "main"
  let tempJ ← pyGetKey mainJ "temp"
  let weatherJ ← pyGetKey data "weather"
  let w0 ← pyGetIndex weatherJ 0
  let descJ ← pyGetKey w0 "description"
  let descriptionS ← pyTitleOn descJ
  let mainJ2 ← pyGetKey data "main"
  let humJ ← pyGetKey mainJ2 "humidity"
  let windJ ← pyGetKey data "wind"
  let speedJ ← pyGetKey windJ "speed"
  let weatherJ2 ← pyGetKey data "weather"
  let w0b ← pyGetIndex weatherJ2 0
  let iconJ ← pyGetKey w0b "icon"
  let sysJ ← pyGetKey data "sys"
  let countryJ ← pyGetKey sysJ "country"
  let cityS ← asStr "city" nameJ
  let temperatureQ ← asFloat "temperature" tempJ
  let humidityZ ← asIntField "humidity" humJ
  let windSpeedQ ← asFloat "wind_speed" speedJ
  let iconS ← asStr "icon" iconJ
  let countryS ← asStr "country" countryJ
  .ok { city := cityS, temperature := temperatureQ, description := descriptionS,
        humidity := humidityZ, wind_speed := windSpeedQ, icon := iconS,
        country := countryS }

/-- Process configuration read per request via `os.getenv`: `none` models an
unset environment variable. -/
structure Config where
  apiKey : Option String
  baseUrl : Option String
deriving DecidableEq, Repr

/-- Python f-string interpolation of an `os.getenv` result: `None` renders as
the string `"None"`. -/
def pyFStr : Option String → String
  | none => "None"
  | some s => s

/-- Outcome of the single outbound `client.get` call: a transport-level
`httpx.RequestError`, or a completed response with status code and parsed JSON
body. -/
inductive Upstream where
  | transportError
  | response (status : Nat) (body : Json)

/-- An outbound HTTP GET request: URL and query parameters in order. -/
structure OutboundRequest where
  url : String
  params : List (String × String)
deriving DecidableEq, Repr

/-- An exception escaping the `try` block: `httpx.RequestError`, or any other
Python exception. -/
inductive RaisedExc where
  | requestError
  | pyExc (e : PyExc)
deriving DecidableEq, Repr

/-- An HTTP error delivered to the caller (status code and detail string). -/
structure HttpError where
  status : Nat
  detail : String
deriving DecidableEq, Repr

/-- Everything observable about one execution of the handler: the response
delivered to the caller, the outbound requests issued, the increment applied
to `weather_requests_total`, and whether `request_duration_seconds` received
an observation. -/
structure HandlerResult where
  response : Except HttpError WeatherResponse
  requests : List OutboundRequest
  counterInc : Nat
  durationObserved : Bool
deriving Repr

/-- The body of the `try` block of `get_weather`, given the configuration, the
city path segment, and the outcome of the outbound call.  Returns the raised
exception or the constructed `WeatherResponse`, together with the outbound
requests issued and whether the duration histogram was observed.
`if not api_key` treats both an unset and an empty-string key as falsy. -/
def tryBlock (cfg : Config) (city : String) (up : Upstream) :
    Except RaisedExc WeatherResponse × List OutboundRequest × Bool :=
  match cfg.apiKey with
  | none => (.error (.pyExc (.httpException 500 "API key not configured")), [], false)
  | some k =>
    if k = "" then
      (.error (.pyExc (.httpException 500 "API key not configured")), [], false)
    else
      let url := pyFStr cfg.baseUrl ++ "/weather"
      let req : OutboundRequest :=
        { url := url, params := [("q", city), ("appid", k), ("units", "metric")] }
      match up with
      | .transportError => (.error .requestError, [req], false)
      | .response status body =>
        if status ≠ 200 then
          (.error (.pyExc (.httpException 404 "City not found")), [req], false)
        else
          match extractWeather body with
          | .error e => (.error (.pyExc e), [req], false)
          | .ok w => (.ok w, [req], true)

/-- The handler `get_weather`: increments the counter unconditionally at
entry, runs the `try` block, and applies the two `except` clauses —
`httpx.RequestError` becomes a 503, and any other exception (including the
`HTTPException`s raised inside the `try` block) becomes a 500 whose detail is
`str(e)`. -/
def get_weather (cfg : Config) (city : String) (up : Upstream) : HandlerResult :=
  let t := tryBlock cfg city up
  { response :=
      match t.1 with
      | .ok w => .ok w
      | .error .requestError => .error { status := 503, detail := "Weather service unavailable" }
      | .error (.pyExc e) => .error { status := 500, detail := strOfExc e },
    requests := t.2.1,
    counterInc := 1,
    durationObserved := t.2.2 }

/-- Result of a parameterless static endpoint: its JSON payload (an object of
string fields) and the outbound requests it issues. -/
structure StaticResult where
  payload : List (String × String)
  requests : List OutboundRequest
deriving DecidableEq, Repr

/-- The `GET /` handler `root`: a fixed static payload, no outbound call. -/
def root : StaticResult :=
  { payload := [("message", "Weather Dashboard API is running! 🌤️")], requests := [] }

/-- The `GET /health` handler `health_check`: a fixed static payload, no
outbound call. -/
def health_check : StaticResult :=
  { payload := [("status", "healthy"), ("service", "weather-api")], requests := [] }

/-- The two process-wide metric accumulators: the value of the
`weather_requests_total` counter and the number of observations recorded into
the `request_duration_seconds` histogram. -/
structure MetricsState where
  counter : Nat
  observations : Nat
deriving DecidableEq, Repr

/-- Effect of one handler execution on the metrics. -/
def stepMetrics (s : MetricsState) (r : HandlerResult) : MetricsState :=
  { counter := s.counter + r.counterInc,
    observations := s.observations + (if r.durationObserved then 1 else 0) }

/-- Run a sequence of requests (each a configuration, city, and upstream
outcome) against the metrics state. -/
def runRequests (s : MetricsState) : List (Config × String × Upstream) → MetricsState
  | [] => s
  | (cfg, city, up) :: rest => runRequests (stepMetrics s (get_weather cfg city up)) rest

/-- Whether a request succeeds (the handler returns a `WeatherResponse`). -/
def succeeds (q : Config × String × Upstream) : Bool :=
  match (get_weather q.1 q.2.1 q.2.2).response with
  | .ok _ => true
  | .error _ => false

/-- A provider body carrying all the fields the handler extracts, with the
types the provider sends (strings, JSON numbers, an integer humidity). -/
def successBody (name desc icon country : String) (temp speed : Rat) (hum : Int) : Json :=
  .jobj [("name", .jstr name),
         ("main", .jobj [("temp", .jnum temp), ("humidity", .jint hum)]),
         ("weather", .jarr [.jobj [("description", .jstr desc), ("icon", .jstr icon)]]),
         ("wind", .jobj [("speed", .jnum speed)]),
         ("sys", .jobj [("country", .jstr country)])]

/-! ## Helper lemmas -/

/-- Every terminating execution of the handler on a completed upstream
response either returns a `WeatherResponse` or delivers an error with status
500: the `HTTPException(404)` raised for a non-200 upstream status is itself
caught by the trailing `except Exception` clause and re-raised with status
500, so only the `httpx.RequestError` branch can produce a non-500 error
status. -/
theorem response_ok_or_500 (cfg : Config) (city : String) (up : Upstream)
    (hup : up ≠ Upstream.transportError) :
    (∃ w, (get_weather cfg city up).response = Except.ok w) ∨
    (∃ d, (get_weather cfg city up).response = Except.error { status := 500, detail := d }) := by
  rcases cfg with ⟨apiKey, baseUrl⟩
  cases apiKey with
  | none => exact Or.inr ⟨_, rfl⟩
  | some k =>
    by_cases hk : k = ""
    · subst hk; exact Or.inr ⟨_, rfl⟩
    · cases up with
      | transportError => exact absurd rfl hup
      | response status body =>
        by_cases hs : status = 200
        · subst hs
          cases hx : extractWeather body with
          | ok w => exact Or.inl ⟨w, by simp [get_weather, tryBlock, hk, hx]⟩
          | error e => exact Or.inr ⟨strOfExc e, by simp [get_weather, tryBlock, hk, hx]⟩
        · exact Or.inr ⟨strOfExc (.httpException 404 "City not found"),
            by simp [get_weather, tryBlock, hk, hs]⟩

/-- The duration histogram is observed exactly on the success path. -/
theorem durationObserved_eq_succeeds (cfg : Config) (city : String) (up : Upstream) :
    (get_weather cfg city up).durationObserved = succeeds (cfg, city, up) := by
  rcases cfg with ⟨apiKey, baseUrl⟩
  cases apiKey with
  | none => rfl
  | some k =>
    by_cases hk : k = ""
    · subst hk; rfl
    · cases up with
      | transportError => simp [succeeds, get_weather, tryBlock, hk]
      | response status body =>
        by_cases hs : status = 200
        · subst hs
          cases hx : extractWeather body with
          | ok w => simp [succeeds, get_weather, tryBlock, hk, hx]
          | error e => simp [succeeds, get_weather, tryBlock, hk, hx]
        · simp [succeeds, get_weather, tryBlock, hk, hs]

/-- Running a request list adds its length to the counter and its number of
successes to the histogram observation count. -/
theorem runRequests_spec (qs : List (Config × String × Upstream)) :
    ∀ s : MetricsState,
      (runRequests s qs).counter = s.counter + qs.length ∧
      (runRequests s qs).observations = s.observations + (qs.filter succeeds).length := by
  induction qs with
  | nil => intro s; simp [runRequests]
  | cons q rest ih =>
    intro s
    rcases q with ⟨cfg, city, up⟩
    have hobs := durationObserved_eq_succeeds cfg city up
    rcases ih (stepMetrics s (get_weather cfg city up)) with ⟨ihc, iho⟩
    constructor
    · rw [runRequests, ihc]
      simp [stepMetrics, get_weather]
      omega
    · rw [runRequests, iho]
      simp only [stepMetrics, hobs, List.filter_cons]
      by_cases hq : succeeds (cfg, city, up)
      · simp [hq]; omega
      · simp [hq]

/-- Splitting a request list by success keeps all its elements. -/
theorem length_filter_split (qs : List (Config × String × Upstream)) :
    (qs.filter succeeds).length + (qs.filter (fun q => ! succeeds q)).length = qs.length := by
  induction qs with
  | nil => rfl
  | cons q rest ih =>
    by_cases hq : succeeds q
    · simp [List.filter_cons, hq]; omega
    · simp [List.filter_cons, hq]; omega

/-! ## Claim theorems -/

/-- C1: for a request where the API key is configured (non-empty) and the
provider responds 200 with a body containing the expected fields, the handler
returns a `WeatherResponse` whose `city` is the provider `name`, `temperature`
is `main.temp`, `description` is `weather[0].description` title-cased,
`humidity` is `main.humidity`, `wind_speed` is `wind.speed`, `icon` is
`weather[0].icon`, and `country` is `sys.country`, with every numeric field
passed through exactly (no rounding, clamping, or unit conversion). -/
theorem get_weather_success_maps_fields_exactly
    (k : String) (b : Option String) (city name desc icon country : String)
    (temp speed : Rat) (hum : Int) (hk : k ≠ "") :
    (get_weather ⟨some k, b⟩ city
        (.response 200 (successBody name desc icon country temp speed hum))).response =
      Except.ok { city := name, temperature := temp, description := pyTitle desc,
                  humidity := hum, wind_speed := speed, icon := icon, country := country } := by
  have hx : extractWeather (successBody name desc icon country temp speed hum) =
      Except.ok { city := name, temperature := temp, description := pyTitle desc,
                  humidity := hum, wind_speed := speed, icon := icon, country := country } := rfl
  simp [get_weather, tryBlock, hk, hx]

/-- C1 witness: a concrete successful lookup, showing the upstream description
`"light rain"` delivered title-cased as `"Light Rain"`. -/
theorem get_weather_success_maps_fields_exactly_witness :
    (get_weather ⟨some "demo-key", some "http://api.openweathermap.org/data/2.5"⟩ "London"
        (.response 200 (successBody "London" "light rain" "10d" "GB" 21 4 65))).response =
      Except.ok { city := "London", temperature := 21, description := pyTitle "light rain",
                  humidity := 65, wind_speed := 4, icon := "10d", country := "GB" } ∧
    pyTitle "light rain" = "Light Rain" :=
  ⟨get_weather_success_maps_fields_exactly "demo-key"
      (some "http://api.openweathermap.org/data/2.5") "London" "London" "light rain" "10d" "GB"
      21 4 65 (by decide),
   by decide⟩

/-- C2: the claim says a non-200 upstream status yields HTTP 404 with message
`"City not found"`.  The code raises exactly that `HTTPException(404)`, but
the trailing `except Exception` clause catches it and re-raises it as status
500 with detail `str(e)`; the caller receives a 500 whose detail is
`"404: City not found"`.  This theorem evaluates the handler at the failing
input. -/
theorem get_weather_non200_delivers_500_not_404 :
    (get_weather ⟨some "demo-key", some "http://api.openweathermap.org/data/2.5"⟩ "Nowhereville"
        (.response 404 (.jobj [("cod", .jstr "404"), ("message", .jstr "city not found")]))).response =
      Except.error { status := 500, detail := "404: City not found" } := rfl

/-- C3: when the API key environment variable is unset, every request gets a
500 with the same fixed detail, and no outbound request is issued. -/
theorem get_weather_missing_key_500_no_call (b : Option String) (city : String) (up : Upstream) :
    (get_weather ⟨none, b⟩ city up).response =
      Except.error { status := 500, detail := "500: API key not configured" } ∧
    (get_weather ⟨none, b⟩ city up).requests = [] :=
  ⟨rfl, rfl⟩

/-- C4: a transport-level failure of the outbound call yields exactly a 503
with the fixed detail, and no other failure kind produces a 503 (every other
error path delivers status 500). -/
theorem get_weather_503_iff_transport :
    (∀ (k : String) (b : Option String) (city : String), k ≠ "" →
      (get_weather ⟨some k, b⟩ city Upstream.transportError).response =
        Except.error { status := 503, detail := "Weather service unavailable" }) ∧
    (∀ (cfg : Config) (city : String) (up : Upstream) (err : HttpError),
      up ≠ Upstream.transportError →
      (get_weather cfg city up).response = Except.error err → err.status ≠ 503) := by
  constructor
  · intro k b city hk
    simp [get_weather, tryBlock, hk]
  · intro cfg city up err hup herr
    rcases response_ok_or_500 cfg city up hup with ⟨w, hw⟩ | ⟨d, hd⟩
    · exact Except.noConfusion (herr.symm.trans hw)
    · have h : Except.error (ε := HttpError) (α := WeatherResponse) err =
          Except.error { status := 500, detail := d } := herr.symm.trans hd
      injection h with h
      rw [h]
      simp

/-- C4 witness: the 503 branch at a concrete configured request, and a
concrete non-transport failure whose status is not 503. -/
theorem get_weather_503_iff_transport_witness :
    (get_weather ⟨some "demo-key", some "http://u"⟩ "London" Upstream.transportError).response =
      Except.error { status := 503, detail := "Weather service unavailable" } ∧
    ({ status := 500, detail := "500: API key not configured" } : HttpError).status ≠ 503 :=
  ⟨get_weather_503_iff_transport.1 "demo-key" (some "http://u") "London" (by decide),
   get_weather_503_iff_transport.2 ⟨none, some "http://u"⟩ "London"
     (.response 200 Json.jnull) _ (by intro h; cases h) rfl⟩

/-- C5: the counter is incremented exactly once per request on every path, the
duration histogram is observed exactly on success, and over any sequence of
requests the counter grows by the number of successes plus the number of
failures while the histogram receives one observation per success. -/
theorem metrics_counter_and_histogram :
    (∀ (cfg : Config) (city : String) (up : Upstream),
      (get_weather cfg city up).counterInc = 1 ∧
      (get_weather cfg city up).durationObserved = succeeds (cfg, city, up)) ∧
    (∀ (s : MetricsState) (qs : List (Config × String × Upstream)),
      (runRequests s qs).counter =
        s.counter + ((qs.filter succeeds).length +
          (qs.filter (fun q => ! succeeds q)).length) ∧
      (runRequests s qs).observations = s.observations + (qs.filter succeeds).length) := by
  constructor
  · intro cfg city up
    exact ⟨rfl, durationObserved_eq_succeeds cfg city up⟩
  · intro s qs
    rcases runRequests_spec qs s with ⟨hc, ho⟩
    refine ⟨?_, ho⟩
    rw [hc, length_filter_split]

/-- C6: `GET /` and `GET /health` return their fixed payloads and issue no
outbound request. -/
theorem static_endpoints_fixed :
    root.payload = [("message", "Weather Dashboard API is running! 🌤️")] ∧
    root.requests = [] ∧
    health_check.payload = [("status", "healthy"), ("service", "weather-api")] ∧
    health_check.requests = [] :=
  ⟨rfl, rfl, rfl, rfl⟩

/-- C7 counterexample: with the API key present but equal to the empty string
(the environment variable set to `""`), `os.getenv` returns a falsy value, so
the handler raises before the outbound call: zero requests are issued and the
caller gets a 500, refuting the claim that a present key always yields exactly
one outbound request. -/
theorem present_empty_key_makes_no_call :
    (get_weather ⟨some "", some "http://api.openweathermap.org/data/2.5"⟩ "London"
        (.response 200 Json.jnull)).requests = [] ∧
    (get_weather ⟨some "", some "http://api.openweathermap.org/data/2.5"⟩ "London"
        (.response 200 Json.jnull)).response =
      Except.error { status := 500, detail := "500: API key not configured" } :=
  ⟨rfl, rfl⟩

/-- C7 (amended): when the API key is present and non-empty, the handler
issues exactly one outbound GET, to `base_url` (as interpolated) followed by
`/weather`, with exactly the query parameters `q` set to the unmodified city
path segment, `appid` set to the configured key, and `units` set to
`"metric"`, on every upstream outcome. -/
theorem get_weather_single_outbound_request
    (k : String) (b : Option String) (city : String) (up : Upstream) (hk : k ≠ "") :
    (get_weather ⟨some k, b⟩ city up).requests =
      [{ url := pyFStr b ++ "/weather",
         params := [("q", city), ("appid", k), ("units", "metric")] }] := by
  rcases up with _ | ⟨status, body⟩
  · simp [get_weather, tryBlock, hk]
  · by_cases hs : status = 200
    · subst hs
      cases hx : extractWeather body with
      | ok w => simp [get_weather, tryBlock, hk, hx]
      | error e => simp [get_weather, tryBlock, hk, hx]
    · simp [get_weather, tryBlock, hk, hs]

/-- C7 witness: a concrete request issuing exactly one outbound call with the
three expected query parameters. -/
theorem get_weather_single_outbound_request_witness :
    (get_weather ⟨some "demo-key", some "http://u"⟩ "London" Upstream.transportError).requests =
      [{ url := pyFStr (some "http://u") ++ "/weather",
         params := [("q", "London"), ("appid", "demo-key"), ("units", "metric")] }] ∧
    pyFStr (some "http://u") ++ "/weather" = "http://u/weather" :=
  ⟨get_weather_single_outbound_request "demo-key" (some "http://u") "London"
      Upstream.transportError (by decide),
   by decide⟩

/-- C8: when the provider returns 200 but constructing the `WeatherResponse`
raises (for instance a missing field), the handler delivers a 500 whose detail
is the text of the raised exception. -/
theorem get_weather_extraction_failure_500
    (k : String) (b : Option String) (city : String) (body : Json) (e : PyExc)
    (hk : k ≠ "") (hx : extractWeather body = Except.error e) :
    (get_weather ⟨some k, b⟩ city (.response 200 body)).response =
      Except.error { status := 500, detail := strOfExc e } := by
  simp [get_weather, tryBlock, hk, hx]

/-- C8 witness: an empty provider body raises `KeyError` on `"name"`, whose
Python text is the quoted key, and the caller receives it in a 500. -/
theorem get_weather_extraction_failure_500_witness :
    (get_weather ⟨some "demo-key", some "http://u"⟩ "London"
        (.response 200 (Json.jobj []))).response =
      Except.error { status := 500, detail := strOfExc (PyExc.keyError "name") } ∧
    strOfExc (PyExc.keyError "name") = "\x27name\x27" :=
  ⟨get_weather_extraction_failure_500 "demo-key" (some "http://u") "London" (Json.jobj [])
      (PyExc.keyError "name") (by decide) rfl,
   rfl⟩

/-- C10: every failure other than a transport-level `httpx.RequestError`
reaches the caller as status 500: the `HTTPException`s raised inside the try
block for the missing-key case and the non-200 case are caught by the
trailing `except Exception` clause and re-raised as 500 with detail `str(e)`,
so the 404 status never reaches the caller and the fixed detail strings
arrive only inside the `str` rendering of the swallowed exception. -/
theorem handler_exceptions_swallowed_to_500 :
    (∀ (b : Option String) (city : String) (up : Upstream),
      (get_weather ⟨none, b⟩ city up).response =
        Except.error { status := 500, detail := "500: API key not configured" }) ∧
    (∀ (k : String) (b : Option String) (city : String) (status : Nat) (body : Json),
      k ≠ "" → status ≠ 200 →
      (get_weather ⟨some k, b⟩ city (.response status body)).response =
        Except.error { status := 500, detail := "404: City not found" }) ∧
    ("404: City not found" ≠ "City not found" ∧ "500: API key not configured" ≠ "API key not configured") ∧
    (∀ (cfg : Config) (city : String) (up : Upstream) (err : HttpError),
      up ≠ Upstream.transportError →
      (get_weather cfg city up).response = Except.error err → err.status = 500) := by
  refine ⟨fun b city up => rfl, ?_, ⟨by decide, by decide⟩, ?_⟩
  · intro k b city status body hk hs
    simp [get_weather, tryBlock, hk, hs]
    rfl
  · intro cfg city up err hup herr
    rcases response_ok_or_500 cfg city up hup with ⟨w, hw⟩ | ⟨d, hd⟩
    · exact Except.noConfusion (herr.symm.trans hw)
    · have h : Except.error (ε := HttpError) (α := WeatherResponse) err =
          Except.error { status := 500, detail := d } := herr.symm.trans hd
      injection h with h
      rw [h]

/-- C10 witness: both swallowed exceptions observed at concrete inputs. -/
theorem handler_exceptions_swallowed_to_500_witness :
    (get_weather ⟨none, some "http://u"⟩ "Paris" (.response 200 Json.jnull)).response =
      Except.error { status := 500, detail := "500: API key not configured" } ∧
    (get_weather ⟨some "demo-key", some "http://u"⟩ "Paris" (.response 429 Json.jnull)).response =
      Except.error { status := 500, detail := "404: City not found" } :=
  ⟨handler_exceptions_swallowed_to_500.1 (some "http://u") "Paris" (.response 200 Json.jnull),
   handler_exceptions_swallowed_to_500.2.1 "demo-key" (some "http://u") "Paris" 429 Json.jnull
     (by decide) (by decide)⟩

end WeatherApp
